import Mathlib

/-!
Shallow embedding of the outgoing-webhook retry-and-reconciliation engine
from crates/router/src/workflows/outgoing_webhook_retry.rs.

External collaborators (job store, Event Log storage, domain services,
delivery transport) are modelled as environment records of functions; the
engine's own control flow is translated from the source. Executions record
their externally visible calls as a trace of effects.
-/

namespace WebhookRetry

/-- Event type of an outgoing webhook, identified by its serialized name
(api_models::enums::EventType; only equality and display are relevant here). -/
structure EventType where
  name : String
deriving DecidableEq, Repr

/-- Resource category a notification concerns
(diesel_models::enums::EventClass). -/
inductive EventClass
  | payments
  | refunds
  | disputes
  | mandates
  | payouts
deriving DecidableEq, Repr

/-- Classification of a delivery attempt
(storage::enums::WebhookDeliveryAttempt). -/
inductive WebhookDeliveryAttempt
  | initialAttempt
  | automaticRetry
  | manualRetry
deriving DecidableEq, Repr

/-- Tracking payload of an outgoing-webhook retry job
(core::webhooks::types::OutgoingWebhookTrackingData). -/
structure OutgoingWebhookTrackingData where
  merchant_id : String
  business_profile_id : String
  event_type : EventType
  event_class : EventClass
  primary_object_id : String
  initial_attempt_id : Option String
deriving DecidableEq, Repr

/-- Delivery-attempt record persisted in the Event Log (domain::Event).
The encrypted request/response snapshots are modelled by their raw serialized
content. -/
structure Event where
  event_id : String
  event_type : EventType
  event_class : EventClass
  is_webhook_notified : Bool
  primary_object_id : String
  primary_object_type : String
  created_at : Nat
  merchant_id : Option String
  business_profile_id : Option String
  primary_object_created_at : Option Nat
  idempotent_event_id : Option String
  initial_attempt_id : Option String
  request : Option String
  response : Option String
  delivery_attempt : Option WebhookDeliveryAttempt
  metadata : Option String
  is_overall_delivery_successful : Option Bool
deriving DecidableEq, Repr

/-- Row claimed from the durable job store (storage::ProcessTracker);
tracking_data is the raw serialized payload, opaque to the store. -/
structure ProcessTracker where
  tracking_data : String
  retry_count : Nat
deriving DecidableEq, Repr

/-- Infrastructure-level failure of a workflow execution
(errors::ProcessTrackerError, restricted to the variants this module
produces or propagates). -/
inductive ProcessTrackerError
  | deserializationFailed
  | eApiErrorResponse
  | resourceFetchingFailed (resource_name : String)
  | typeConversion
  | storage (msg : String)
deriving DecidableEq, Repr

/-- Error from the storage layer (errors::StorageError, restricted to what
the retry-schedule lookup distinguishes). -/
inductive StorageError
  | dbNotFound
  | deserializationFailed
  | other (msg : String)
deriving DecidableEq, Repr

/-- Tests whether a storage error is the not-found case
(StorageError::is_db_not_found). -/
def StorageError.is_db_not_found : StorageError → Bool
  | .dbNotFound => true
  | _ => false

/-- Terminal business status written when a retry is aborted because the
resource status no longer matches
(diesel_models::process_tracker::business_status::RESOURCE_STATUS_MISMATCH). -/
def RESOURCE_STATUS_MISMATCH : String := "RESOURCE_STATUS_MISMATCH"

/-- Terminal business status written when the retry budget is exhausted
(diesel_models::process_tracker::business_status::RETRIES_EXCEEDED). -/
def RETRIES_EXCEEDED : String := "RETRIES_EXCEEDED"

/-- Display name of a delivery attempt kind, used in derived identifiers. -/
def WebhookDeliveryAttempt.display : WebhookDeliveryAttempt → String
  | .initialAttempt => "initial_attempt"
  | .automaticRetry => "automatic_retry"
  | .manualRetry => "manual_retry"

/-- Modelled from the spec: the Idempotency Key Deriver
(webhooks_core::utils::get_idempotent_event_id is outside the provided
sources) — a deterministic, side-effect-free derivation from
(primary_object_id, event_type, delivery_attempt), ignoring event_id and
retry_count. -/
def get_idempotent_event_id (primary_object_id : String) (event_type : EventType)
    (delivery_attempt : WebhookDeliveryAttempt) : String :=
  primary_object_id ++ "_" ++ event_type.name ++ "_" ++ delivery_attempt.display

/-- Mapping shape for one retry schedule: first delay, then parallel
(frequency, count) arrays (process_data; shape given in §6 of the spec and in
the doc comment of get_webhook_delivery_retry_schedule_time). -/
structure RetryMapping where
  start_after : Nat
  frequency : List Nat
  count : List Nat
deriving DecidableEq, Repr

/-- Retry configuration: a default mapping plus per-merchant overrides
(process_data::OutgoingWebhookRetryProcessTrackerMapping). -/
structure OutgoingWebhookRetryProcessTrackerMapping where
  default_mapping : RetryMapping
  custom_merchant_mapping : List (String × RetryMapping)
deriving DecidableEq, Repr

/-- Modelled from the spec: the built-in default retry configuration used
when the mapping config cannot be loaded
(OutgoingWebhookRetryProcessTrackerMapping::default is outside the provided
sources; the spec fixes its existence, not its values — the doc-comment
example values are used here). -/
def defaultRetryMapping : OutgoingWebhookRetryProcessTrackerMapping :=
  { default_mapping := { start_after := 60, frequency := [300], count := [5] }
    custom_merchant_mapping := [] }

/-- Modelled from the spec: step-function consumption of the parallel
(frequency, count) arrays for attempts beyond the first — the first count[0]
such attempts yield frequency[0], the next count[1] yield frequency[1], and
so on; past the cumulative count the result is none. The argument k is the
1-based index among the attempts after attempt 1. -/
def stepDelay : List Nat → List Nat → Nat → Option Nat
  | f :: fs, c :: cs, k => if k ≤ c then some f else stepDelay fs cs (k - c)
  | _, _, _ => none

/-- Modelled from the spec: the Retry Schedule Resolver on a single mapping —
attempt 1 always yields start_after; attempts beyond 1 consume the
(frequency, count) step function
(scheduler::utils::get_outgoing_webhook_retry_schedule_time is outside the
provided sources). -/
def resolveRetrySchedule (m : RetryMapping) (attempt_number : Nat) : Option Nat :=
  if attempt_number ≤ 1 then some m.start_after
  else stepDelay m.frequency m.count (attempt_number - 1)

/-- Modelled from the spec: mapping selection — a per-merchant override is
used if present, otherwise the default mapping — followed by the step-function
resolution (scheduler::utils::get_outgoing_webhook_retry_schedule_time). -/
def get_outgoing_webhook_retry_schedule_time
    (mapping : OutgoingWebhookRetryProcessTrackerMapping) (merchant_id : String)
    (retry_count : Nat) : Option Nat :=
  let retry_mapping :=
    match mapping.custom_merchant_mapping.lookup merchant_id with
    | some m => m
    | none => mapping.default_mapping
  resolveRetrySchedule retry_mapping retry_count

/-- Modelled from the spec: conversion of a relative delay into an absolute
schedule time (scheduler::utils::get_time_from_delta is outside the provided
sources). -/
def get_time_from_delta (now : Nat) (delta : Option Nat) : Option Nat :=
  delta.map (now + ·)

/-- Response wrapper returned by the route-level domain services
(services::ApplicationResponse); only the Json and JsonWithHeaders variants
carry structured content. -/
inductive ApplicationResponse (α : Type)
  | json (body : α)
  | jsonWithHeaders (body : α) (headers : List (String × String))
  | statusOk
  | textPlain (text : String)
  | jsonForRedirection (url : String)
  | form (form : String)
  | genericLinkForm (form : String)
  | paymentLinkForm (form : String)
  | fileData (data : String)
deriving DecidableEq, Repr

/-- Holds when an application response carries no structured JSON content. -/
def ApplicationResponse.isNonContent {α : Type} : ApplicationResponse α → Bool
  | .json _ => false
  | .jsonWithHeaders _ _ => false
  | _ => true

/-- Payment retrieval response (api_models::payments::PaymentsResponse);
status names the payment's IntentStatus. -/
structure PaymentsResponse where
  payment_id : String
  status : String
deriving DecidableEq, Repr

/-- Domain refund as returned by the refund retrieval core; refund_status
names the RefundStatus. -/
structure Refund where
  refund_id : String
  refund_status : String
deriving DecidableEq, Repr

/-- Refund response rendered for subscribers
(api_models::refunds::RefundResponse). -/
structure RefundResponse where
  refund_id : String
  status : String
deriving DecidableEq, Repr

/-- Dispute retrieval response; dispute_status names the DisputeStatus. -/
structure DisputeResponse where
  dispute_id : String
  dispute_status : String
deriving DecidableEq, Repr

/-- Mandate retrieval response; status names the MandateStatus. -/
structure MandateResponse where
  mandate_id : String
  status : String
deriving DecidableEq, Repr

/-- Payout data assembled by payouts::make_payout_data; attempt_status names
the payout attempt's status. -/
structure PayoutData where
  payout_id : String
  attempt_status : String
deriving DecidableEq, Repr

/-- Payout response rendered by payouts::response_handler. -/
structure PayoutCreateResponse where
  payout_id : String
  status : String
deriving DecidableEq, Repr

/-- Tagged union over the five resource kinds carried by an outgoing webhook
(api_models::webhooks::OutgoingWebhookContent). -/
inductive OutgoingWebhookContent
  | paymentDetails (response : PaymentsResponse)
  | refundDetails (response : RefundResponse)
  | disputeDetails (response : DisputeResponse)
  | mandateDetails (response : MandateResponse)
  | payoutDetails (response : PayoutCreateResponse)
deriving DecidableEq, Repr

/-- Payment retrieval request built by the Payments branch
(api_models::payments::PaymentsRetrieveRequest, the fields this module
sets). -/
structure PaymentsRetrieveRequest where
  resource_id : String
  merchant_id : Option String
  force_sync : Bool
deriving DecidableEq, Repr

/-- Refund retrieval request built by the Refunds branch
(api_models::refunds::RefundsRetrieveRequest). -/
structure RefundsRetrieveRequest where
  refund_id : String
  force_sync : Option Bool
deriving DecidableEq, Repr

/-- Connector-call policy passed to the payments core
(payments::CallConnectorAction). -/
inductive CallConnectorAction
  | trigger
  | avoid
deriving DecidableEq, Repr

/-- Call made by the Resource State Fetcher to an underlying domain
service, recorded for the execution trace. -/
inductive DomainCall
  | payments (request : PaymentsRetrieveRequest) (action : CallConnectorAction)
  | refunds (request : RefundsRetrieveRequest)
  | disputes (dispute_id : String)
  | mandates (mandate_id : String)
  | payouts (payout_id : String)
deriving DecidableEq, Repr

/-- Collaborating domain services consumed by the Resource State Fetcher,
including the status-to-event-type mappings (ForeignFrom/Into impls that live
outside this module). -/
structure FetchEnv where
  parsePaymentId : String → Option String
  payments_core :
    PaymentsRetrieveRequest → CallConnectorAction →
      Except ProcessTrackerError (ApplicationResponse PaymentsResponse)
  paymentStatusToEventType : String → Option EventType
  refund_retrieve_core_with_refund_id :
    RefundsRetrieveRequest → Except ProcessTrackerError Refund
  refundStatusToEventType : String → Option EventType
  refundForeignFrom : Refund → RefundResponse
  retrieve_dispute :
    String → Except ProcessTrackerError (ApplicationResponse DisputeResponse)
  disputeStatusToEventType : String → EventType
  get_mandate :
    String → Except ProcessTrackerError (ApplicationResponse MandateResponse)
  mandateStatusToEventType : String → Option EventType
  parsePayoutId : String → Option String
  make_payout_data : String → Except ProcessTrackerError PayoutData
  payout_response_handler : PayoutData → Except ProcessTrackerError PayoutCreateResponse
  payoutStatusToEventType : String → Option EventType

/-- Resource State Fetcher (get_outgoing_webhook_content_and_event_type):
dispatches on the event class, retrieves the already-persisted view of the
resource, and returns the rendered content together with the event type the
current resource status maps to. Every domain-service call made is recorded
in the returned trace. -/
def get_outgoing_webhook_content_and_event_type (env : FetchEnv)
    (tracking_data : OutgoingWebhookTrackingData) :
    List DomainCall × Except ProcessTrackerError (OutgoingWebhookContent × Option EventType) :=
  match tracking_data.event_class with
  | .payments =>
    match env.parsePaymentId tracking_data.primary_object_id with
    | none => ([], .error .deserializationFailed)
    | some payment_id =>
      let request : PaymentsRetrieveRequest :=
        { resource_id := payment_id
          merchant_id := some tracking_data.merchant_id
          force_sync := false }
      match env.payments_core request .avoid with
      | .error e => ([.payments request .avoid], .error e)
      | .ok (.json payments_response) =>
        ([.payments request .avoid],
          .ok (.paymentDetails payments_response,
            env.paymentStatusToEventType payments_response.status))
      | .ok (.jsonWithHeaders payments_response _) =>
        ([.payments request .avoid],
          .ok (.paymentDetails payments_response,
            env.paymentStatusToEventType payments_response.status))
      | .ok _ =>
        ([.payments request .avoid],
          .error (.resourceFetchingFailed tracking_data.primary_object_id))
  | .refunds =>
    let request : RefundsRetrieveRequest :=
      { refund_id := tracking_data.primary_object_id
        force_sync := some false }
    match env.refund_retrieve_core_with_refund_id request with
    | .error e => ([.refunds request], .error e)
    | .ok refund =>
      ([.refunds request],
        .ok (.refundDetails (env.refundForeignFrom refund),
          env.refundStatusToEventType refund.refund_status))
  | .disputes =>
    let dispute_id := tracking_data.primary_object_id
    match env.retrieve_dispute dispute_id with
    | .error e => ([.disputes dispute_id], .error e)
    | .ok (.json dispute_response) =>
      ([.disputes dispute_id],
        .ok (.disputeDetails dispute_response,
          some (env.disputeStatusToEventType dispute_response.dispute_status)))
    | .ok (.jsonWithHeaders dispute_response _) =>
      ([.disputes dispute_id],
        .ok (.disputeDetails dispute_response,
          some (env.disputeStatusToEventType dispute_response.dispute_status)))
    | .ok _ =>
      ([.disputes dispute_id],
        .error (.resourceFetchingFailed tracking_data.primary_object_id))
  | .mandates =>
    let mandate_id := tracking_data.primary_object_id
    match env.get_mandate mandate_id with
    | .error e => ([.mandates mandate_id], .error e)
    | .ok (.json mandate_response) =>
      ([.mandates mandate_id],
        .ok (.mandateDetails mandate_response,
          env.mandateStatusToEventType mandate_response.status))
    | .ok (.jsonWithHeaders mandate_response _) =>
      ([.mandates mandate_id],
        .ok (.mandateDetails mandate_response,
          env.mandateStatusToEventType mandate_response.status))
    | .ok _ =>
      ([.mandates mandate_id],
        .error (.resourceFetchingFailed tracking_data.primary_object_id))
  | .payouts =>
    match env.parsePayoutId tracking_data.primary_object_id with
    | none => ([], .error .typeConversion)
    | some payout_id =>
      match env.make_payout_data payout_id with
      | .error e => ([.payouts payout_id], .error e)
      | .ok payout_data =>
        match env.payout_response_handler payout_data with
        | .error e => ([.payouts payout_id], .error e)
        | .ok payout_create_response =>
          ([.payouts payout_id],
            .ok (.payoutDetails payout_create_response,
              env.payoutStatusToEventType payout_data.attempt_status))

/-- Merchant key material resolved from the key store
(domain::MerchantKeyStore, opaque here). -/
structure MerchantKeyStore where
  merchant_id : String
  key : String
deriving DecidableEq, Repr

/-- Business profile resolved from storage (domain::Profile, the fields this
module reads). -/
structure BusinessProfile where
  merchant_id : String
  profile_id : String
deriving DecidableEq, Repr

/-- Merchant account resolved from storage (domain::MerchantAccount, opaque
here). -/
structure MerchantAccount where
  merchant_id : String
deriving DecidableEq, Repr

/-- Serialized request of a previous delivery, parsed back from an Event's
stored request snapshot
(api_models::webhook_events::OutgoingWebhookRequestContent). The payload
field holds the body content verbatim. -/
structure OutgoingWebhookRequestContent where
  payload : String
  headers : List (String × String)
deriving DecidableEq, Repr

/-- Ephemeral webhook value built on the reconciliation path
(api_models::webhooks::OutgoingWebhook). -/
structure OutgoingWebhook where
  merchant_id : String
  event_id : String
  event_type : EventType
  content : OutgoingWebhookContent
  timestamp : Nat
deriving DecidableEq, Repr

/-- Externally visible call made during one workflow execution, in program
order. -/
inductive Effect
  | getKeyStore (merchant_id : String)
  | findProfile (profile_id : String)
  | eventLookup (merchant_id : String) (event_id : String)
  | eventInsert (event : Event)
  | findMerchantAccount (merchant_id : String)
  | fetcherCall
  | deliver (event : Event) (request : OutgoingWebhookRequestContent)
      (content : Option OutgoingWebhookContent)
  | finishProcess (status : String)
deriving DecidableEq, Repr

/-- Collaborators consumed by the Delivery Orchestrator. The Resource State
Fetcher is abstracted to its result here (its own dispatch is modelled by
get_outgoing_webhook_content_and_event_type above); generate_event_id is a
non-deterministic generator, modelled by the id it yields this execution. -/
structure WorkflowEnv where
  parseTrackingData : String → Option OutgoingWebhookTrackingData
  get_merchant_key_store_by_merchant_id : String → Except ProcessTrackerError MerchantKeyStore
  find_business_profile_by_profile_id : String → Except ProcessTrackerError BusinessProfile
  generate_event_id : String
  now : Nat
  find_event_by_merchant_id_event_id :
    String → String → Except ProcessTrackerError Event
  insert_event : Event → Except ProcessTrackerError Event
  parseRequestContent : String → Option OutgoingWebhookRequestContent
  find_merchant_account_by_merchant_id : String → Except ProcessTrackerError MerchantAccount
  fetch : Except ProcessTrackerError (OutgoingWebhookContent × Option EventType)
  get_outgoing_webhook_request : OutgoingWebhook → Option OutgoingWebhookRequestContent
  finish_process : String → Except ProcessTrackerError Unit

/-- Legacy composite Event Log key used when tracking data predates the
chained-lookup scheme. -/
def legacyEventId (tracking_data : OutgoingWebhookTrackingData) : String :=
  tracking_data.primary_object_id ++ "_" ++ tracking_data.event_type.name

/-- New Event minted for this delivery attempt (the domain::Event literal of
execute_workflow). -/
def mintRetryEvent (env : WorkflowEnv) (tracking_data : OutgoingWebhookTrackingData)
    (business_profile : BusinessProfile) (initial_event : Event) : Event :=
  { event_id := env.generate_event_id
    event_type := initial_event.event_type
    event_class := initial_event.event_class
    is_webhook_notified := false
    primary_object_id := initial_event.primary_object_id
    primary_object_type := initial_event.primary_object_type
    created_at := env.now
    merchant_id := some business_profile.merchant_id
    business_profile_id := some business_profile.profile_id
    primary_object_created_at := initial_event.primary_object_created_at
    idempotent_event_id := some (get_idempotent_event_id
      tracking_data.primary_object_id tracking_data.event_type .automaticRetry)
    initial_attempt_id := some initial_event.event_id
    request := initial_event.request
    response := none
    delivery_attempt := some .automaticRetry
    metadata := initial_event.metadata
    is_overall_delivery_successful := some false }

/-- Event Log key the triggering Event is resolved by: the chained id when
tracking data carries initial_attempt_id, else the legacy composite key. -/
def lookupEventId (tracking_data : OutgoingWebhookTrackingData) : String :=
  match tracking_data.initial_attempt_id with
  | some initial_attempt_id => initial_attempt_id
  | none => legacyEventId tracking_data

/-- Post-insert stage of the Delivery Orchestrator (the body of the
match on the as-stored event's request in execute_workflow): replays the
stored request when present, otherwise reconciles against the fetched
resource state and either delivers a fresh webhook or finishes the job with
RESOURCE_STATUS_MISMATCH. -/
def deliverOrReconcile (env : WorkflowEnv)
    (tracking_data : OutgoingWebhookTrackingData) (event : Event) :
    List Effect × Except ProcessTrackerError Unit :=
  match event.request with
  | some request =>
    match env.parseRequestContent request with
    | none => ([], .error .deserializationFailed)
    | some request_content =>
      ([.deliver event request_content none], .ok ())
  | none =>
    match env.find_merchant_account_by_merchant_id tracking_data.merchant_id with
    | .error e => ([.findMerchantAccount tracking_data.merchant_id], .error e)
    | .ok _merchant_account =>
    let pre5 := [Effect.findMerchantAccount tracking_data.merchant_id]
    match env.fetch with
    | .error e => (pre5 ++ [.fetcherCall], .error e)
    | .ok (content, event_type) =>
    let pre6 := pre5 ++ [Effect.fetcherCall]
    match event_type with
    | some et =>
      if et = tracking_data.event_type then
        let outgoing_webhook : OutgoingWebhook :=
          { merchant_id := tracking_data.merchant_id
            event_id := event.event_id
            event_type := et
            content := content
            timestamp := event.created_at }
        match env.get_outgoing_webhook_request outgoing_webhook with
        | none => (pre6, .error .eApiErrorResponse)
        | some request_content =>
          (pre6 ++ [.deliver event request_content (some content)], .ok ())
      else
        (pre6 ++ [.finishProcess RESOURCE_STATUS_MISMATCH],
          env.finish_process RESOURCE_STATUS_MISMATCH)
    | none =>
      (pre6 ++ [.finishProcess RESOURCE_STATUS_MISMATCH],
        env.finish_process RESOURCE_STATUS_MISMATCH)

/-- Delivery Orchestrator
(OutgoingWebhookRetryWorkflow::execute_workflow, v1): parses the tracking
payload, resolves key store and business profile, resolves the triggering
Event by chained or legacy lookup, mints and persists a new Event, then
either replays the stored request or reconciles against the fetched resource
state (deliverOrReconcile). Returns the trace of external calls in program
order together with the execution result. -/
def execute_workflow (env : WorkflowEnv) (process : ProcessTracker) :
    List Effect × Except ProcessTrackerError Unit :=
  match env.parseTrackingData process.tracking_data with
  | none => ([], .error .deserializationFailed)
  | some tracking_data =>
  match env.get_merchant_key_store_by_merchant_id tracking_data.merchant_id with
  | .error e => ([.getKeyStore tracking_data.merchant_id], .error e)
  | .ok _key_store =>
  let pre1 := [Effect.getKeyStore tracking_data.merchant_id]
  match env.find_business_profile_by_profile_id tracking_data.business_profile_id with
  | .error e => (pre1 ++ [.findProfile tracking_data.business_profile_id], .error e)
  | .ok business_profile =>
  let pre2 := pre1 ++ [Effect.findProfile tracking_data.business_profile_id]
  let lookup_id := lookupEventId tracking_data
  match env.find_event_by_merchant_id_event_id business_profile.merchant_id lookup_id with
  | .error e => (pre2 ++ [.eventLookup business_profile.merchant_id lookup_id], .error e)
  | .ok initial_event =>
  let pre3 := pre2 ++ [Effect.eventLookup business_profile.merchant_id lookup_id]
  let new_event := mintRetryEvent env tracking_data business_profile initial_event
  match env.insert_event new_event with
  | .error e => (pre3 ++ [.eventInsert new_event], .error e)
  | .ok event =>
  let pre4 := pre3 ++ [Effect.eventInsert new_event]
  let out := deliverOrReconcile env tracking_data event
  (pre4 ++ out.1, out.2)

/-- Extracts the events handed to Event Log insertion, in order. -/
def insertAttempts (tr : List Effect) : List Event :=
  tr.filterMap fun e =>
    match e with
    | .eventInsert ev => some ev
    | _ => none

/-- Extracts the delivery-transport invocations
(trigger_webhook_and_raise_event calls), in order. -/
def deliverCalls (tr : List Effect) :
    List (Event × OutgoingWebhookRequestContent × Option OutgoingWebhookContent) :=
  tr.filterMap fun e =>
    match e with
    | .deliver ev rc c => some (ev, rc, c)
    | _ => none

/-- Extracts the Event Log lookups as (merchant_id, event_id) pairs, in
order. -/
def eventLookups (tr : List Effect) : List (String × String) :=
  tr.filterMap fun e =>
    match e with
    | .eventLookup m i => some (m, i)
    | _ => none

/-- Extracts the business statuses the job was finished with, in order. -/
def finishes (tr : List Effect) : List String :=
  tr.filterMap fun e =>
    match e with
    | .finishProcess s => some s
    | _ => none

/-- Tests whether an effect is a Resource State Fetcher invocation. -/
def Effect.isFetcherCall : Effect → Bool
  | .fetcherCall => true
  | _ => false

/-- Whether the Resource State Fetcher was invoked during the execution. -/
def fetcherCalled (tr : List Effect) : Bool :=
  tr.any Effect.isFetcherCall

/-- Storage collaborators consumed by the retry-scheduling path. -/
structure ScheduleEnv where
  find_config_by_key : String → Except StorageError String
  parseMapping : String → Option OutgoingWebhookRetryProcessTrackerMapping
  now : Nat
  retry_process : Nat → Except StorageError Unit
  finish_process : String → Except StorageError Unit

/-- Scheduler call made by the reschedule-or-finish decision. -/
inductive SchedEffect
  | retryProcess (schedule_time : Nat)
  | finishProcess (status : String)
deriving DecidableEq, Repr

/-- Schedule-time computation (get_webhook_delivery_retry_schedule_time):
loads the retry configuration under its well-known key, falling back to the
built-in default on any load or parse failure, then resolves the delay for
this merchant and retry count and converts it to an absolute time. -/
def get_webhook_delivery_retry_schedule_time (env : ScheduleEnv)
    (merchant_id : String) (retry_count : Nat) : Option Nat :=
  let result : Except StorageError OutgoingWebhookRetryProcessTrackerMapping :=
    match env.find_config_by_key "pt_mapping_outgoing_webhooks" with
    | .error e => .error e
    | .ok config =>
      match env.parseMapping config with
      | some mapping => .ok mapping
      | none => .error .deserializationFailed
  let mapping :=
    match result with
    | .error _ => defaultRetryMapping
    | .ok mapping => mapping
  let time_delta := get_outgoing_webhook_retry_schedule_time mapping merchant_id retry_count
  get_time_from_delta env.now time_delta

/-- Reschedule-or-finish decision after a failed delivery
(retry_webhook_delivery_task): consults the schedule with retry_count + 1 and
either reschedules the job at the returned time or finishes it with
RETRIES_EXCEEDED. -/
def retry_webhook_delivery_task (env : ScheduleEnv) (merchant_id : String)
    (process : ProcessTracker) : List SchedEffect × Except StorageError Unit :=
  let schedule_time :=
    get_webhook_delivery_retry_schedule_time env merchant_id (process.retry_count + 1)
  match schedule_time with
  | some schedule_time =>
    ([.retryProcess schedule_time], env.retry_process schedule_time)
  | none =>
    ([.finishProcess RETRIES_EXCEEDED], env.finish_process RETRIES_EXCEEDED)

/-! Concrete fixtures used by the witness theorems. -/

/-- Sample event type matching the tracked state. -/
def etSucceeded : EventType := ⟨"payment_succeeded"⟩

/-- Sample event type differing from the tracked state. -/
def etFailed : EventType := ⟨"payment_failed"⟩

/-- Sample tracking data carrying a chained initial_attempt_id. -/
def tdChained : OutgoingWebhookTrackingData :=
  { merchant_id := "m1"
    business_profile_id := "bp1"
    event_type := etSucceeded
    event_class := .payments
    primary_object_id := "pay_1"
    initial_attempt_id := some "evt_init" }

/-- Sample tracking data from before the chaining scheme. -/
def tdLegacy : OutgoingWebhookTrackingData :=
  { tdChained with initial_attempt_id := none }

/-- Sample resolved triggering Event with the given stored request
snapshot. -/
def sampleInitialEvent (request : Option String) : Event :=
  { event_id := "evt_init"
    event_type := etSucceeded
    event_class := .payments
    is_webhook_notified := false
    primary_object_id := "pay_1"
    primary_object_type := "payment"
    created_at := 50
    merchant_id := some "m1"
    business_profile_id := some "bp1"
    primary_object_created_at := some 40
    idempotent_event_id := some "idem_init"
    initial_attempt_id := none
    request := request
    response := none
    delivery_attempt := some .initialAttempt
    metadata := none
    is_overall_delivery_successful := some true }

/-- Sample workflow environment in which every collaborator succeeds,
parameterized by the triggering Event and the fetch result. -/
def sampleEnv (td : OutgoingWebhookTrackingData) (initial : Event)
    (fetchResult : Except ProcessTrackerError (OutgoingWebhookContent × Option EventType)) :
    WorkflowEnv :=
  { parseTrackingData := fun _ => some td
    get_merchant_key_store_by_merchant_id := fun mid => .ok ⟨mid, "key"⟩
    find_business_profile_by_profile_id := fun pid => .ok ⟨td.merchant_id, pid⟩
    generate_event_id := "evt_new"
    now := 100
    find_event_by_merchant_id_event_id := fun _ _ => .ok initial
    insert_event := fun e => .ok e
    parseRequestContent := fun s => some ⟨s, []⟩
    find_merchant_account_by_merchant_id := fun mid => .ok ⟨mid⟩
    fetch := fetchResult
    get_outgoing_webhook_request := fun _ => some ⟨"fresh_body", []⟩
    finish_process := fun _ => .ok () }

/-- Sample claimed process-tracker row. -/
def sampleProcess : ProcessTracker :=
  { tracking_data := "tracking", retry_count := 0 }

/-- Sample schedule environment whose config lookup reports not-found. -/
def schedEnvNotFound : ScheduleEnv :=
  { find_config_by_key := fun _ => .error .dbNotFound
    parseMapping := fun _ => none
    now := 0
    retry_process := fun _ => .ok ()
    finish_process := fun _ => .ok () }

/-- Sample retry configuration carrying a per-merchant override for m1. -/
def sampleLoadedMapping : OutgoingWebhookRetryProcessTrackerMapping :=
  { default_mapping := { start_after := 30, frequency := [120, 600], count := [3, 2] }
    custom_merchant_mapping := [("m1", { start_after := 10, frequency := [20], count := [1] })] }

/-- Sample schedule environment that loads and parses sampleLoadedMapping. -/
def schedEnvLoaded : ScheduleEnv :=
  { find_config_by_key := fun _ => .ok "cfg"
    parseMapping := fun _ => some sampleLoadedMapping
    now := 7
    retry_process := fun _ => .ok ()
    finish_process := fun _ => .ok () }

/-- Sample fetch environment in which every collaborator succeeds,
parameterized by the application responses of the three route-level
services. -/
def sampleFetchEnv (payRes : ApplicationResponse PaymentsResponse)
    (disRes : ApplicationResponse DisputeResponse)
    (manRes : ApplicationResponse MandateResponse) : FetchEnv :=
  { parsePaymentId := fun s => some s
    payments_core := fun _ _ => .ok payRes
    paymentStatusToEventType := fun _ => some etSucceeded
    refund_retrieve_core_with_refund_id := fun req => .ok ⟨req.refund_id, "success"⟩
    refundStatusToEventType := fun _ => some etSucceeded
    refundForeignFrom := fun r => ⟨r.refund_id, r.refund_status⟩
    retrieve_dispute := fun _ => .ok disRes
    disputeStatusToEventType := fun s => ⟨s⟩
    get_mandate := fun _ => .ok manRes
    mandateStatusToEventType := fun _ => some etSucceeded
    parsePayoutId := fun s => some s
    make_payout_data := fun pid => .ok ⟨pid, "success"⟩
    payout_response_handler := fun pd => .ok ⟨pd.payout_id, pd.attempt_status⟩
    payoutStatusToEventType := fun _ => some etSucceeded }

/-- Holds of a domain-service call that requests only the already-persisted
local view of the resource: payment retrievals carry force_sync false with the
connector call avoided, refund retrievals carry force_sync some false, and
the remaining services take no synchronization parameter. -/
def DomainCall.localOnly : DomainCall → Prop
  | .payments req act => req.force_sync = false ∧ act = .avoid
  | .refunds req => req.force_sync = some false
  | _ => True

/-! Structural lemmas about the post-insert stage of the workflow. -/

/-- Confirms that every domain-service call the Resource State Fetcher makes
requests only the local view of the resource. -/
lemma fetcher_calls_localOnly (env : FetchEnv) (td : OutgoingWebhookTrackingData) :
    ∀ call ∈ (get_outgoing_webhook_content_and_event_type env td).1,
      call.localOnly := by
  intro call hc
  unfold get_outgoing_webhook_content_and_event_type at hc
  dsimp only at hc
  repeat' split at hc
  all_goals simp_all [DomainCall.localOnly]

/-- Confirms that the post-insert stage never inserts a further Event. -/
lemma insertAttempts_deliverOrReconcile (env : WorkflowEnv)
    (tracking_data : OutgoingWebhookTrackingData) (event : Event) :
    insertAttempts (deliverOrReconcile env tracking_data event).1 = [] := by
  unfold deliverOrReconcile
  repeat' split
  all_goals dsimp only
  all_goals try split
  all_goals simp [insertAttempts]

/-- Confirms that the post-insert stage never looks up a further Event. -/
lemma eventLookups_deliverOrReconcile (env : WorkflowEnv)
    (tracking_data : OutgoingWebhookTrackingData) (event : Event) :
    eventLookups (deliverOrReconcile env tracking_data event).1 = [] := by
  unfold deliverOrReconcile
  repeat' split
  all_goals dsimp only
  all_goals try split
  all_goals simp [eventLookups]

/-! Step-function lemmas for the Retry Schedule Resolver. -/

/-- Past the cumulative count of all (frequency, count) pairs, the step
function yields none. -/
lemma stepDelay_sum_lt (fs cs : List Nat) (k : Nat)
    (hlen : fs.length = cs.length) (h : cs.sum < k) :
    stepDelay fs cs k = none := by
  induction fs generalizing cs k with
  | nil =>
    cases cs with
    | nil => simp [stepDelay]
    | cons c ct => simp at hlen
  | cons f ft ih =>
    cases cs with
    | nil => simp at hlen
    | cons c ct =>
      simp only [List.sum_cons] at h
      have hck : ¬ k ≤ c := by omega
      simp only [stepDelay, if_neg hck]
      exact ih ct (k - c) (by simpa using hlen) (by omega)

/-- Within the i-th segment of the step function (strictly past the first i
cumulative counts, at most the first i+1), the i-th frequency is yielded. -/
lemma stepDelay_segment (fs cs : List Nat) (i k : Nat)
    (hif : i < fs.length) (hic : i < cs.length)
    (hlo : (cs.take i).sum < k) (hhi : k ≤ (cs.take (i + 1)).sum) :
    stepDelay fs cs k = some fs[i] := by
  induction i generalizing fs cs k with
  | zero =>
    cases fs with
    | nil => simp at hif
    | cons f ft =>
      cases cs with
      | nil => simp at hic
      | cons c ct =>
        simp only [List.take, List.sum_cons, List.sum_nil] at hhi
        have hk : k ≤ c := by omega
        simp [stepDelay, if_pos hk]
  | succ i ih =>
    cases fs with
    | nil => simp at hif
    | cons f ft =>
      cases cs with
      | nil => simp at hic
      | cons c ct =>
        simp only [List.take, List.sum_cons] at hlo hhi
        have hck : ¬ k ≤ c := by
          have : 0 ≤ (ct.take i).sum := Nat.zero_le _
          omega
        simp only [stepDelay, if_neg hck]
        have := ih ft ct (k - c) (by simpa using hif) (by simpa using hic)
          (by omega) (by omega)
        simpa using this

/-- C5: the Retry Schedule Resolver is the documented step function —
attempt 1 always yields start_after; attempts beyond 1 consume the parallel
(frequency, count) arrays in order, the i-th segment yielding frequency[i];
past the cumulative count it yields none; and for the mapping
(start_after 60, frequency [300], count [5]) it yields 60 at attempt 1, 300
at attempts 2 through 6, and none at attempt 7. -/
theorem retry_schedule_resolver_step_function :
    (∀ m : RetryMapping, resolveRetrySchedule m 1 = some m.start_after)
    ∧ (∀ (m : RetryMapping) (n : Nat), 2 ≤ n →
        resolveRetrySchedule m n = stepDelay m.frequency m.count (n - 1))
    ∧ (∀ (m : RetryMapping) (i n : Nat) (hif : i < m.frequency.length),
        i < m.count.length →
        (m.count.take i).sum < n - 1 → n - 1 ≤ (m.count.take (i + 1)).sum →
        resolveRetrySchedule m n = some m.frequency[i])
    ∧ (∀ (m : RetryMapping) (n : Nat), m.frequency.length = m.count.length →
        m.count.sum < n - 1 → resolveRetrySchedule m n = none)
    ∧ resolveRetrySchedule ⟨60, [300], [5]⟩ 1 = some 60
    ∧ (∀ n : Nat, 2 ≤ n → n ≤ 6 → resolveRetrySchedule ⟨60, [300], [5]⟩ n = some 300)
    ∧ resolveRetrySchedule ⟨60, [300], [5]⟩ 7 = none := by
  refine ⟨fun m => by simp [resolveRetrySchedule], ?_, ?_, ?_, by decide, ?_, by decide⟩
  · intro m n hn
    rw [resolveRetrySchedule, if_neg (by omega)]
  · intro m i n hif hic hlo hhi
    rw [resolveRetrySchedule, if_neg (by omega)]
    exact stepDelay_segment m.frequency m.count i (n - 1) hif hic hlo hhi
  · intro m n hlen hsum
    rw [resolveRetrySchedule, if_neg (by omega)]
    exact stepDelay_sum_lt m.frequency m.count (n - 1) hlen hsum
  · intro n h2 h6
    rw [resolveRetrySchedule, if_neg (by omega)]
    show stepDelay [300] [5] (n - 1) = some 300
    rw [stepDelay, if_pos (by omega)]

/-- Witness for C5: every hypothesis-bearing conjunct applied at concrete
inputs. -/
theorem retry_schedule_resolver_step_function_witness :
    resolveRetrySchedule ⟨60, [300], [5]⟩ 3 = stepDelay [300] [5] 2
    ∧ resolveRetrySchedule ⟨30, [120, 600], [3, 2]⟩ 5 = some 600
    ∧ resolveRetrySchedule ⟨30, [120, 600], [3, 2]⟩ 7 = none
    ∧ resolveRetrySchedule ⟨60, [300], [5]⟩ 4 = some 300 := by
  refine ⟨?_, ?_, ?_, ?_⟩
  · exact retry_schedule_resolver_step_function.2.1 ⟨60, [300], [5]⟩ 3 (by decide)
  · have := retry_schedule_resolver_step_function.2.2.1 ⟨30, [120, 600], [3, 2]⟩ 1 5
      (by decide) (by decide) (by decide) (by decide)
    simpa using this
  · exact retry_schedule_resolver_step_function.2.2.2.1 ⟨30, [120, 600], [3, 2]⟩ 7
      (by decide) (by decide)
  · exact retry_schedule_resolver_step_function.2.2.2.2.2.1 4 (by decide) (by decide)

/-- C4: the reschedule-or-finish decision consults the Retry Schedule
Resolver with attempt number retry_count + 1; a returned delay reschedules
the job at that time, an exhausted (none) result finishes it with
RETRIES_EXCEEDED, and exactly one of the two scheduler operations happens
per decision. -/
theorem retry_decision_reschedules_or_finishes (env : ScheduleEnv)
    (merchant_id : String) (process : ProcessTracker) :
    ((∃ t, get_webhook_delivery_retry_schedule_time env merchant_id (process.retry_count + 1)
          = some t
        ∧ (retry_webhook_delivery_task env merchant_id process).1 = [.retryProcess t])
      ∨ (get_webhook_delivery_retry_schedule_time env merchant_id (process.retry_count + 1)
          = none
        ∧ (retry_webhook_delivery_task env merchant_id process).1
          = [.finishProcess RETRIES_EXCEEDED]))
    ∧ (retry_webhook_delivery_task env merchant_id process).1.length = 1 := by
  cases h : get_webhook_delivery_retry_schedule_time env merchant_id (process.retry_count + 1) with
  | none =>
    refine ⟨.inr ⟨rfl, ?_⟩, ?_⟩ <;> simp [retry_webhook_delivery_task, h]
  | some t =>
    refine ⟨.inl ⟨t, rfl, ?_⟩, ?_⟩ <;> simp [retry_webhook_delivery_task, h]

/-- C8: mapping selection uses a per-merchant override when present and the
default mapping otherwise; a not-found retry config falls back to the
built-in default mapping, so the schedule-time computation proceeds (it is
total and never fails the execution). -/
theorem retry_mapping_selection_and_fallback (env : ScheduleEnv)
    (merchant_id : String) (retry_count : Nat) :
    (env.find_config_by_key "pt_mapping_outgoing_webhooks" = .error .dbNotFound →
      get_webhook_delivery_retry_schedule_time env merchant_id retry_count =
        get_time_from_delta env.now
          (get_outgoing_webhook_retry_schedule_time defaultRetryMapping merchant_id retry_count))
    ∧ (∀ config mapping,
        env.find_config_by_key "pt_mapping_outgoing_webhooks" = .ok config →
        env.parseMapping config = some mapping →
        get_webhook_delivery_retry_schedule_time env merchant_id retry_count =
          get_time_from_delta env.now
            (get_outgoing_webhook_retry_schedule_time mapping merchant_id retry_count))
    ∧ (∀ (mapping : OutgoingWebhookRetryProcessTrackerMapping) (m : RetryMapping),
        mapping.custom_merchant_mapping.lookup merchant_id = some m →
        get_outgoing_webhook_retry_schedule_time mapping merchant_id retry_count =
          resolveRetrySchedule m retry_count)
    ∧ (∀ mapping : OutgoingWebhookRetryProcessTrackerMapping,
        mapping.custom_merchant_mapping.lookup merchant_id = none →
        get_outgoing_webhook_retry_schedule_time mapping merchant_id retry_count =
          resolveRetrySchedule mapping.default_mapping retry_count) := by
  refine ⟨?_, ?_, ?_, ?_⟩
  · intro h
    simp [get_webhook_delivery_retry_schedule_time, h]
  · intro config mapping hc hm
    simp [get_webhook_delivery_retry_schedule_time, hc, hm]
  · intro mapping m hm
    simp [get_outgoing_webhook_retry_schedule_time, hm]
  · intro mapping hm
    simp [get_outgoing_webhook_retry_schedule_time, hm]

/-- Witness for C8: the fallback and selection equations at concrete
environments and mappings. -/
theorem retry_mapping_selection_and_fallback_witness :
    (get_webhook_delivery_retry_schedule_time schedEnvNotFound "m1" 1 =
      get_time_from_delta 0
        (get_outgoing_webhook_retry_schedule_time defaultRetryMapping "m1" 1))
    ∧ (get_webhook_delivery_retry_schedule_time schedEnvLoaded "m1" 1 =
      get_time_from_delta 7
        (get_outgoing_webhook_retry_schedule_time sampleLoadedMapping "m1" 1))
    ∧ (get_outgoing_webhook_retry_schedule_time sampleLoadedMapping "m1" 1 =
      resolveRetrySchedule ⟨10, [20], [1]⟩ 1)
    ∧ (get_outgoing_webhook_retry_schedule_time sampleLoadedMapping "m2" 1 =
      resolveRetrySchedule sampleLoadedMapping.default_mapping 1) := by
  refine ⟨?_, ?_, ?_, ?_⟩
  · exact (retry_mapping_selection_and_fallback schedEnvNotFound "m1" 1).1 rfl
  · exact (retry_mapping_selection_and_fallback schedEnvLoaded "m1" 1).2.1
      "cfg" sampleLoadedMapping rfl rfl
  · exact (retry_mapping_selection_and_fallback schedEnvLoaded "m1" 1).2.2.1
      sampleLoadedMapping ⟨10, [20], [1]⟩ (by decide)
  · exact (retry_mapping_selection_and_fallback schedEnvLoaded "m2" 1).2.2.2
      sampleLoadedMapping (by decide)

/-- C1: on the reconciliation path (resolved triggering Event without a
stored request), a fetched current_event_type differing from the tracked
event_type never invokes the delivery transport; the job is finished with
RESOURCE_STATUS_MISMATCH (the execution's result is that of the finish call,
so no reschedule is ever requested). -/
theorem reconciliation_mismatch_aborts (env : WorkflowEnv) (process : ProcessTracker)
    (td : OutgoingWebhookTrackingData) (ks : MerchantKeyStore) (bp : BusinessProfile)
    (initial : Event) (ma : MerchantAccount) (content : OutgoingWebhookContent)
    (et : EventType)
    (hparse : env.parseTrackingData process.tracking_data = some td)
    (hks : env.get_merchant_key_store_by_merchant_id td.merchant_id = .ok ks)
    (hbp : env.find_business_profile_by_profile_id td.business_profile_id = .ok bp)
    (hev : env.find_event_by_merchant_id_event_id bp.merchant_id (lookupEventId td)
      = .ok initial)
    (hins : ∀ e, env.insert_event e = .ok e)
    (hreq : initial.request = none)
    (hma : env.find_merchant_account_by_merchant_id td.merchant_id = .ok ma)
    (hfetch : env.fetch = .ok (content, some et))
    (hne : et ≠ td.event_type) :
    deliverCalls (execute_workflow env process).1 = []
    ∧ finishes (execute_workflow env process).1 = [RESOURCE_STATUS_MISMATCH]
    ∧ (execute_workflow env process).2 = env.finish_process RESOURCE_STATUS_MISMATCH := by
  have hnew : (mintRetryEvent env td bp initial).request = none := by
    simp [mintRetryEvent, hreq]
  simp only [execute_workflow, hparse, hks, hbp, hev, hins, deliverOrReconcile,
    hnew, hma, hfetch, hne, if_false, ite_false, if_neg hne]
  simp [deliverCalls, finishes]

/-- Witness for C1: the mismatch abort at a concrete environment. -/
theorem reconciliation_mismatch_aborts_witness :
    deliverCalls (execute_workflow
      (sampleEnv tdChained (sampleInitialEvent none)
        (.ok (.paymentDetails ⟨"pay_1", "failed"⟩, some etFailed))) sampleProcess).1 = []
    ∧ finishes (execute_workflow
      (sampleEnv tdChained (sampleInitialEvent none)
        (.ok (.paymentDetails ⟨"pay_1", "failed"⟩, some etFailed))) sampleProcess).1
      = [RESOURCE_STATUS_MISMATCH] := by
  have h := reconciliation_mismatch_aborts
    (sampleEnv tdChained (sampleInitialEvent none)
      (.ok (.paymentDetails ⟨"pay_1", "failed"⟩, some etFailed)))
    sampleProcess tdChained ⟨"m1", "key"⟩ ⟨"m1", "bp1"⟩ (sampleInitialEvent none)
    ⟨"m1"⟩ (.paymentDetails ⟨"pay_1", "failed"⟩) etFailed
    rfl rfl rfl rfl (fun _ => rfl) rfl rfl rfl (by decide)
  exact ⟨h.1, h.2.1⟩

/-- C10: on the reconciliation path, a fetched resource status that maps to
no webhook event type at all (current_event_type none) is handled exactly
like a genuine mismatch — the delivery transport is never invoked and the job
is finished with RESOURCE_STATUS_MISMATCH rather than failing the
execution. -/
theorem reconciliation_missing_type_aborts (env : WorkflowEnv) (process : ProcessTracker)
    (td : OutgoingWebhookTrackingData) (ks : MerchantKeyStore) (bp : BusinessProfile)
    (initial : Event) (ma : MerchantAccount) (content : OutgoingWebhookContent)
    (hparse : env.parseTrackingData process.tracking_data = some td)
    (hks : env.get_merchant_key_store_by_merchant_id td.merchant_id = .ok ks)
    (hbp : env.find_business_profile_by_profile_id td.business_profile_id = .ok bp)
    (hev : env.find_event_by_merchant_id_event_id bp.merchant_id (lookupEventId td)
      = .ok initial)
    (hins : ∀ e, env.insert_event e = .ok e)
    (hreq : initial.request = none)
    (hma : env.find_merchant_account_by_merchant_id td.merchant_id = .ok ma)
    (hfetch : env.fetch = .ok (content, none)) :
    deliverCalls (execute_workflow env process).1 = []
    ∧ finishes (execute_workflow env process).1 = [RESOURCE_STATUS_MISMATCH]
    ∧ (execute_workflow env process).2 = env.finish_process RESOURCE_STATUS_MISMATCH := by
  have hnew : (mintRetryEvent env td bp initial).request = none := by
    simp [mintRetryEvent, hreq]
  simp only [execute_workflow, hparse, hks, hbp, hev, hins, deliverOrReconcile,
    hnew, hma, hfetch]
  simp [deliverCalls, finishes]

/-- Witness for C10: the missing-type abort at a concrete environment. -/
theorem reconciliation_missing_type_aborts_witness :
    deliverCalls (execute_workflow
      (sampleEnv tdChained (sampleInitialEvent none)
        (.ok (.paymentDetails ⟨"pay_1", "processing"⟩, none))) sampleProcess).1 = []
    ∧ finishes (execute_workflow
      (sampleEnv tdChained (sampleInitialEvent none)
        (.ok (.paymentDetails ⟨"pay_1", "processing"⟩, none))) sampleProcess).1
      = [RESOURCE_STATUS_MISMATCH] := by
  have h := reconciliation_missing_type_aborts
    (sampleEnv tdChained (sampleInitialEvent none)
      (.ok (.paymentDetails ⟨"pay_1", "processing"⟩, none)))
    sampleProcess tdChained ⟨"m1", "key"⟩ ⟨"m1", "bp1"⟩ (sampleInitialEvent none)
    ⟨"m1"⟩ (.paymentDetails ⟨"pay_1", "processing"⟩)
    rfl rfl rfl rfl (fun _ => rfl) rfl rfl rfl
  exact ⟨h.1, h.2.1⟩

/-- C2: when the resolved triggering Event carries a stored request payload,
the execution hands exactly the parse of those stored bytes, unchanged, to
the delivery transport, tagged with the newly minted Event, and never invokes
the Resource State Fetcher. -/
theorem replay_path_fidelity (env : WorkflowEnv) (process : ProcessTracker)
    (td : OutgoingWebhookTrackingData) (ks : MerchantKeyStore) (bp : BusinessProfile)
    (initial : Event) (raw : String) (rc : OutgoingWebhookRequestContent)
    (hparse : env.parseTrackingData process.tracking_data = some td)
    (hks : env.get_merchant_key_store_by_merchant_id td.merchant_id = .ok ks)
    (hbp : env.find_business_profile_by_profile_id td.business_profile_id = .ok bp)
    (hev : env.find_event_by_merchant_id_event_id bp.merchant_id (lookupEventId td)
      = .ok initial)
    (hins : ∀ e, env.insert_event e = .ok e)
    (hreq : initial.request = some raw)
    (hrc : env.parseRequestContent raw = some rc) :
    deliverCalls (execute_workflow env process).1
      = [(mintRetryEvent env td bp initial, rc, none)]
    ∧ fetcherCalled (execute_workflow env process).1 = false
    ∧ (execute_workflow env process).2 = .ok () := by
  have hnew : (mintRetryEvent env td bp initial).request = some raw := by
    simp [mintRetryEvent, hreq]
  simp only [execute_workflow, hparse, hks, hbp, hev, hins, deliverOrReconcile,
    hnew, hrc]
  simp [deliverCalls, fetcherCalled, Effect.isFetcherCall]

/-- Witness for C2: the replay at a concrete environment, delivering the
parse of the stored bytes. -/
theorem replay_path_fidelity_witness :
    deliverCalls (execute_workflow
      (sampleEnv tdChained (sampleInitialEvent (some "stored_bytes"))
        (.error .deserializationFailed)) sampleProcess).1
      = [(mintRetryEvent
            (sampleEnv tdChained (sampleInitialEvent (some "stored_bytes"))
              (.error .deserializationFailed))
            tdChained ⟨"m1", "bp1"⟩ (sampleInitialEvent (some "stored_bytes")),
          ⟨"stored_bytes", []⟩, none)]
    ∧ fetcherCalled (execute_workflow
      (sampleEnv tdChained (sampleInitialEvent (some "stored_bytes"))
        (.error .deserializationFailed)) sampleProcess).1 = false := by
  have h := replay_path_fidelity
    (sampleEnv tdChained (sampleInitialEvent (some "stored_bytes"))
      (.error .deserializationFailed))
    sampleProcess tdChained ⟨"m1", "key"⟩ ⟨"m1", "bp1"⟩
    (sampleInitialEvent (some "stored_bytes")) "stored_bytes" ⟨"stored_bytes", []⟩
    rfl rfl rfl rfl (fun _ => rfl) rfl rfl
  exact ⟨h.1, h.2.1⟩

/-- C3: every execution that resolves its triggering Event hands exactly one
new Event to the Event Log before any delivery attempt — with event_id from
the generator, idempotent_event_id derived from (primary_object_id,
tracking event_type, AutomaticRetry), initial_attempt_id equal to the
resolved Event's event_id, and is_webhook_notified false — and a failed
insert fails the whole execution with no delivery attempted. -/
theorem mint_exactly_one_event (env : WorkflowEnv) (process : ProcessTracker)
    (td : OutgoingWebhookTrackingData) (ks : MerchantKeyStore) (bp : BusinessProfile)
    (initial : Event)
    (hparse : env.parseTrackingData process.tracking_data = some td)
    (hks : env.get_merchant_key_store_by_merchant_id td.merchant_id = .ok ks)
    (hbp : env.find_business_profile_by_profile_id td.business_profile_id = .ok bp)
    (hev : env.find_event_by_merchant_id_event_id bp.merchant_id (lookupEventId td)
      = .ok initial) :
    insertAttempts (execute_workflow env process).1 = [mintRetryEvent env td bp initial]
    ∧ (mintRetryEvent env td bp initial).event_id = env.generate_event_id
    ∧ (mintRetryEvent env td bp initial).idempotent_event_id
      = some (get_idempotent_event_id td.primary_object_id td.event_type .automaticRetry)
    ∧ (mintRetryEvent env td bp initial).initial_attempt_id = some initial.event_id
    ∧ (mintRetryEvent env td bp initial).is_webhook_notified = false
    ∧ (∃ suffix, (execute_workflow env process).1 =
        [.getKeyStore td.merchant_id, .findProfile td.business_profile_id,
         .eventLookup bp.merchant_id (lookupEventId td),
         .eventInsert (mintRetryEvent env td bp initial)] ++ suffix
        ∧ insertAttempts suffix = [])
    ∧ (∀ err, env.insert_event (mintRetryEvent env td bp initial) = .error err →
        (execute_workflow env process).2 = .error err
        ∧ deliverCalls (execute_workflow env process).1 = []) := by
  simp only [execute_workflow, hparse, hks, hbp, hev]
  cases hi : env.insert_event (mintRetryEvent env td bp initial) with
  | error err =>
    refine ⟨by simp [insertAttempts], rfl, rfl, rfl, rfl, ⟨[], by simp, by simp [insertAttempts]⟩,
      ?_⟩
    intro err' herr
    have : err = err' := by
      simpa using herr
    subst this
    exact ⟨rfl, by simp [deliverCalls]⟩
  | ok ev =>
    refine ⟨?_, rfl, rfl, rfl, rfl,
      ⟨(deliverOrReconcile env td ev).1, by simp, insertAttempts_deliverOrReconcile env td ev⟩,
      ?_⟩
    · have hsuffix := insertAttempts_deliverOrReconcile env td ev
      simp only [insertAttempts] at hsuffix
      simp [insertAttempts, hsuffix]
    · intro err herr
      simp at herr

/-- Witness for C3: exactly-one-insert at a concrete succeeding environment,
and failure propagation at a concrete environment whose insert fails. -/
theorem mint_exactly_one_event_witness :
    insertAttempts (execute_workflow
      (sampleEnv tdChained (sampleInitialEvent none)
        (.ok (.paymentDetails ⟨"pay_1", "succeeded"⟩, some etSucceeded))) sampleProcess).1
      = [mintRetryEvent
          (sampleEnv tdChained (sampleInitialEvent none)
            (.ok (.paymentDetails ⟨"pay_1", "succeeded"⟩, some etSucceeded)))
          tdChained ⟨"m1", "bp1"⟩ (sampleInitialEvent none)]
    ∧ (execute_workflow
        { sampleEnv tdChained (sampleInitialEvent none)
            (.ok (.paymentDetails ⟨"pay_1", "succeeded"⟩, some etSucceeded)) with
          insert_event := fun _ => .error .deserializationFailed } sampleProcess).2
      = .error .deserializationFailed := by
  constructor
  · exact (mint_exactly_one_event
      (sampleEnv tdChained (sampleInitialEvent none)
        (.ok (.paymentDetails ⟨"pay_1", "succeeded"⟩, some etSucceeded)))
      sampleProcess tdChained ⟨"m1", "key"⟩ ⟨"m1", "bp1"⟩ (sampleInitialEvent none)
      rfl rfl rfl rfl).1
  · exact ((mint_exactly_one_event
      { sampleEnv tdChained (sampleInitialEvent none)
          (.ok (.paymentDetails ⟨"pay_1", "succeeded"⟩, some etSucceeded)) with
        insert_event := fun _ => .error .deserializationFailed }
      sampleProcess tdChained ⟨"m1", "key"⟩ ⟨"m1", "bp1"⟩ (sampleInitialEvent none)
      rfl rfl rfl rfl).2.2.2.2.2.2 .deserializationFailed rfl).1

/-- C6: the triggering Event is looked up exactly once — by the chained
initial_attempt_id when present, by the legacy composite key
primary_object_id_event_type when absent; the two paths are mutually
exclusive and selected purely on presence of initial_attempt_id. -/
theorem event_lookup_path_selection (env : WorkflowEnv) (process : ProcessTracker)
    (td : OutgoingWebhookTrackingData) (ks : MerchantKeyStore) (bp : BusinessProfile)
    (hparse : env.parseTrackingData process.tracking_data = some td)
    (hks : env.get_merchant_key_store_by_merchant_id td.merchant_id = .ok ks)
    (hbp : env.find_business_profile_by_profile_id td.business_profile_id = .ok bp) :
    eventLookups (execute_workflow env process).1 = [(bp.merchant_id, lookupEventId td)]
    ∧ (∀ i, td.initial_attempt_id = some i → lookupEventId td = i)
    ∧ (td.initial_attempt_id = none →
        lookupEventId td = td.primary_object_id ++ "_" ++ td.event_type.name) := by
  refine ⟨?_, ?_, ?_⟩
  · simp only [execute_workflow, hparse, hks, hbp]
    cases hev : env.find_event_by_merchant_id_event_id bp.merchant_id (lookupEventId td) with
    | error e => simp [eventLookups]
    | ok initial =>
      cases hi : env.insert_event (mintRetryEvent env td bp initial) with
      | error err => simp only [hi]; simp [eventLookups]
      | ok ev =>
        simp only [hi]
        have hsuffix := eventLookups_deliverOrReconcile env td ev
        simp only [eventLookups] at hsuffix
        simp [eventLookups, hsuffix]
  · intro i hi
    simp [lookupEventId, hi]
  · intro hnone
    simp [lookupEventId, hnone, legacyEventId]

/-- Witness for C6: the chained lookup and the legacy lookup at concrete
environments. -/
theorem event_lookup_path_selection_witness :
    eventLookups (execute_workflow
      (sampleEnv tdChained (sampleInitialEvent none)
        (.ok (.paymentDetails ⟨"pay_1", "succeeded"⟩, some etSucceeded))) sampleProcess).1
      = [("m1", lookupEventId tdChained)]
    ∧ lookupEventId tdChained = "evt_init"
    ∧ eventLookups (execute_workflow
      (sampleEnv tdLegacy (sampleInitialEvent none)
        (.ok (.paymentDetails ⟨"pay_1", "succeeded"⟩, some etSucceeded))) sampleProcess).1
      = [("m1", lookupEventId tdLegacy)]
    ∧ lookupEventId tdLegacy = "pay_1" ++ "_" ++ "payment_succeeded" := by
  have h1 := event_lookup_path_selection
    (sampleEnv tdChained (sampleInitialEvent none)
      (.ok (.paymentDetails ⟨"pay_1", "succeeded"⟩, some etSucceeded)))
    sampleProcess tdChained ⟨"m1", "key"⟩ ⟨"m1", "bp1"⟩ rfl rfl rfl
  have h2 := event_lookup_path_selection
    (sampleEnv tdLegacy (sampleInitialEvent none)
      (.ok (.paymentDetails ⟨"pay_1", "succeeded"⟩, some etSucceeded)))
    sampleProcess tdLegacy ⟨"m1", "key"⟩ ⟨"m1", "bp1"⟩ rfl rfl rfl
  exact ⟨h1.1, h1.2.1 "evt_init" rfl, h2.1, h2.2.2 rfl⟩

/-- C7: wherever an underlying domain service can return a non-content
response shape (a response other than structured JSON content), the Resource
State Fetcher rejects it as a ResourceFetchingFailed error carrying the
resource id instead of treating it as a business outcome. The Refunds and
Payouts collaborators return typed content directly, so no non-content shape
exists in those branches. -/
theorem non_content_response_rejected (env : FetchEnv)
    (td : OutgoingWebhookTrackingData) :
    (∀ (pid : String) (resp : ApplicationResponse PaymentsResponse),
      td.event_class = .payments →
      env.parsePaymentId td.primary_object_id = some pid →
      env.payments_core
        { resource_id := pid, merchant_id := some td.merchant_id, force_sync := false }
        .avoid = .ok resp →
      resp.isNonContent = true →
      (get_outgoing_webhook_content_and_event_type env td).2
        = .error (.resourceFetchingFailed td.primary_object_id))
    ∧ (∀ resp : ApplicationResponse DisputeResponse,
      td.event_class = .disputes →
      env.retrieve_dispute td.primary_object_id = .ok resp →
      resp.isNonContent = true →
      (get_outgoing_webhook_content_and_event_type env td).2
        = .error (.resourceFetchingFailed td.primary_object_id))
    ∧ (∀ resp : ApplicationResponse MandateResponse,
      td.event_class = .mandates →
      env.get_mandate td.primary_object_id = .ok resp →
      resp.isNonContent = true →
      (get_outgoing_webhook_content_and_event_type env td).2
        = .error (.resourceFetchingFailed td.primary_object_id)) := by
  refine ⟨?_, ?_, ?_⟩
  · intro pid resp hclass hpid hcore hnc
    cases resp <;>
      simp_all [get_outgoing_webhook_content_and_event_type,
        ApplicationResponse.isNonContent]
  · intro resp hclass hdis hnc
    cases resp <;>
      simp_all [get_outgoing_webhook_content_and_event_type,
        ApplicationResponse.isNonContent]
  · intro resp hclass hman hnc
    cases resp <;>
      simp_all [get_outgoing_webhook_content_and_event_type,
        ApplicationResponse.isNonContent]

/-- Witness for C7: each rejecting branch applied at a concrete environment
returning a non-content response. -/
theorem non_content_response_rejected_witness :
    (get_outgoing_webhook_content_and_event_type
      (sampleFetchEnv .statusOk (.json ⟨"d1", "dispute_won"⟩) (.json ⟨"man_1", "active"⟩))
      tdChained).2 = .error (.resourceFetchingFailed "pay_1")
    ∧ (get_outgoing_webhook_content_and_event_type
      (sampleFetchEnv (.json ⟨"pay_1", "succeeded"⟩) (.form "redirect") (.json ⟨"man_1", "active"⟩))
      { tdChained with event_class := .disputes }).2
      = .error (.resourceFetchingFailed "pay_1")
    ∧ (get_outgoing_webhook_content_and_event_type
      (sampleFetchEnv (.json ⟨"pay_1", "succeeded"⟩) (.json ⟨"d1", "dispute_won"⟩)
        (.textPlain "oops"))
      { tdChained with event_class := .mandates }).2
      = .error (.resourceFetchingFailed "pay_1") := by
  refine ⟨?_, ?_, ?_⟩
  · exact (non_content_response_rejected
      (sampleFetchEnv .statusOk (.json ⟨"d1", "dispute_won"⟩) (.json ⟨"man_1", "active"⟩))
      tdChained).1 "pay_1" .statusOk rfl rfl rfl rfl
  · exact (non_content_response_rejected
      (sampleFetchEnv (.json ⟨"pay_1", "succeeded"⟩) (.form "redirect")
        (.json ⟨"man_1", "active"⟩))
      { tdChained with event_class := .disputes }).2.1 (.form "redirect") rfl rfl rfl
  · exact (non_content_response_rejected
      (sampleFetchEnv (.json ⟨"pay_1", "succeeded"⟩) (.json ⟨"d1", "dispute_won"⟩)
        (.textPlain "oops"))
      { tdChained with event_class := .mandates }).2.2 (.textPlain "oops") rfl rfl rfl

/-- C9: the Resource State Fetcher requests only the already-persisted local
view of the resource for every event class — any payment retrieval it issues
has force_sync false with the connector call avoided, and any refund
retrieval has force_sync some false. -/
theorem fetcher_uses_local_view (env : FetchEnv) (td : OutgoingWebhookTrackingData) :
    (∀ (req : PaymentsRetrieveRequest) (act : CallConnectorAction),
      DomainCall.payments req act ∈ (get_outgoing_webhook_content_and_event_type env td).1 →
      req.force_sync = false ∧ act = .avoid)
    ∧ (∀ req : RefundsRetrieveRequest,
      DomainCall.refunds req ∈ (get_outgoing_webhook_content_and_event_type env td).1 →
      req.force_sync = some false) := by
  constructor
  · intro req act hmem
    have h := fetcher_calls_localOnly env td _ hmem
    simpa [DomainCall.localOnly] using h
  · intro req hmem
    have h := fetcher_calls_localOnly env td _ hmem
    simpa [DomainCall.localOnly] using h

/-- Witness for C9: both conjuncts applied to the concrete calls recorded by
concrete payment and refund fetches. -/
theorem fetcher_uses_local_view_witness :
    ({ resource_id := "pay_1", merchant_id := some "m1", force_sync := false }
        : PaymentsRetrieveRequest).force_sync = false
    ∧ ({ refund_id := "pay_1", force_sync := some false }
        : RefundsRetrieveRequest).force_sync = some false := by
  constructor
  · exact ((fetcher_uses_local_view
      (sampleFetchEnv (.json ⟨"pay_1", "succeeded"⟩) (.json ⟨"d1", "dispute_won"⟩)
        (.json ⟨"man_1", "active"⟩))
      tdChained).1
      { resource_id := "pay_1", merchant_id := some "m1", force_sync := false }
      .avoid (by decide)).1
  · exact (fetcher_uses_local_view
      (sampleFetchEnv (.json ⟨"pay_1", "succeeded"⟩) (.json ⟨"d1", "dispute_won"⟩)
        (.json ⟨"man_1", "active"⟩))
      { tdChained with event_class := .refunds }).2
      { refund_id := "pay_1", force_sync := some false } (by decide)

end WebhookRetry
